import Mathlib

/-!
Verification of the Lusitano compiler (lexer.py, parser.py, semantico.py,
lusitano.py) against its natural-language specification.  Each Python
function relevant to a claim is transliterated into an executable Lean
definition; the theorems at the end of the file settle the claims.

Conventions of the embedding:
* Python `Enum` classes become Lean inductive types with the same
  constructor names.
* Python dataclasses become Lean structures with the same field names.
* Stateful visitor methods become pure functions that take the relevant
  part of the analyzer state and return the updated state; visits of
  sub-nodes that the claim quantifies over are abstracted as function
  parameters.
* Characters are handled as ASCII (Python `str.isdigit` and `str.lower`
  agree with `Char.isDigit` and `Char.toLower` on ASCII input).
* Diagnostic message texts are abbreviated (accents and quotes dropped);
  only their presence and multiplicity matter to the claims.
-/

namespace Lusitano

-- ═══════════════════════════════════════════════════════════════════════
-- semantico.py : type system
-- ═══════════════════════════════════════════════════════════════════════

/-- The `Tipo` enum from semantico.py (lines 31-40). -/
inductive Tipo where
  | INTEIRO
  | REAL
  | TEXTO
  | LOGICO
  | VAZIO
  | FUNCAO
  | DESCONHECIDO
  | ERRO
deriving DecidableEq, Repr, Fintype

/-- The `MAPA_TIPOS` dict from semantico.py (lines 56-62), as an association list. -/
def MAPA_TIPOS : List (String × Tipo) :=
  [("inteiro", Tipo.INTEIRO), ("real", Tipo.REAL), ("texto", Tipo.TEXTO),
   ("logico", Tipo.LOGICO), ("vazio", Tipo.VAZIO)]

/-- Model of `AnalisadorSemantico.tipos_compativeis` (semantico.py lines 299-316),
transliterated clause by clause. -/
def tipos_compativeis (tipo1 tipo2 : Tipo) : Bool :=
  if tipo1 = tipo2 then true
  else if tipo1 = Tipo.INTEIRO ∧ tipo2 = Tipo.REAL then true
  else if tipo1 = Tipo.REAL ∧ tipo2 = Tipo.INTEIRO then true
  else if tipo1 = Tipo.DESCONHECIDO ∨ tipo2 = Tipo.DESCONHECIDO then true
  else if tipo1 = Tipo.ERRO ∨ tipo2 = Tipo.ERRO then true
  else false

/-- The operator strings of the arithmetic block of `tipo_resultante`. -/
def operadoresAritmeticos : List String := ["+", "-", "*", "/", "%", "**"]

/-- The operator strings of the comparison block of `tipo_resultante`. -/
def operadoresComparacao : List String := ["==", "!=", "<", "<=", ">", ">="]

/-- The operator strings of the logical block of `tipo_resultante`. -/
def operadoresLogicos : List String := ["e", "ou"]

/-- Model of `AnalisadorSemantico.tipo_resultante` (semantico.py lines 318-337).
The Python function falls through the arithmetic `if` block when neither
inner condition matches; the `else if` chain below reproduces exactly
that control flow because the three operator lists are disjoint. -/
def tipo_resultante (tipo1 tipo2 : Tipo) (operador : String) : Tipo :=
  if operador ∈ operadoresAritmeticos ∧ tipo1 = Tipo.TEXTO ∧
      tipo2 = Tipo.TEXTO ∧ operador = "+" then
    Tipo.TEXTO
  else if operador ∈ operadoresAritmeticos ∧
      (tipo1 = Tipo.INTEIRO ∨ tipo1 = Tipo.REAL) ∧
      (tipo2 = Tipo.INTEIRO ∨ tipo2 = Tipo.REAL) then
    (if tipo1 = Tipo.REAL ∨ tipo2 = Tipo.REAL ∨ operador = "/" then Tipo.REAL
     else Tipo.INTEIRO)
  else if operador ∈ operadoresComparacao then Tipo.LOGICO
  else if operador ∈ operadoresLogicos then Tipo.LOGICO
  else Tipo.ERRO

/-- Number of new diagnostics `AnalisadorSemantico.visitar_binaria`
(semantico.py lines 665-680) emits for the binary expression itself,
ignoring diagnostics produced while visiting the two operands: it emits
exactly one error when `tipo_resultante` returns `ERRO`, none otherwise. -/
def visitar_binaria_novos_erros (tipoEsq tipoDir : Tipo) (operador : String) : Nat :=
  if tipo_resultante tipoEsq tipoDir operador = Tipo.ERRO then 1 else 0

-- ═══════════════════════════════════════════════════════════════════════
-- semantico.py : symbol table entries and the assignment visitor
-- ═══════════════════════════════════════════════════════════════════════

/-- The `Simbolo` dataclass from semantico.py (lines 69-84). -/
structure Simbolo where
  nome : String
  tipo : Tipo
  categoria : String
  escopo : Nat
  linha : Nat
  coluna : Nat
  constante : Bool := false
  parametros : List (String × Tipo) := []
  tipo_retorno : Option Tipo := none
  inicializado : Bool := false
deriving DecidableEq, Repr

/-- Model of `AnalisadorSemantico.visitar_atribuicao` (semantico.py lines 711-737).
Inputs abstract the two stateful sub-results the method consumes:
`simbolo` is the result of `self.tabela.buscar(no.nome)` and `tipo_valor`
the type returned by visiting `no.valor` (diagnostics emitted inside
that sub-visit are not assignment diagnostics).  The result is the list of newly emitted
assignment error messages, the updated symbol stored back into the table,
and the returned type.  When the symbol is missing the method returns
`ERRO` before visiting the value; when it exists it always ends with
`simbolo.inicializado = True`. -/
def visitar_atribuicao (simbolo : Option Simbolo) (tipo_valor : Tipo) :
    List String × Option Simbolo × Tipo :=
  match simbolo with
  | none => (["Variavel nao foi declarada"], none, Tipo.ERRO)
  | some s =>
      let erros1 := if s.constante then ["Nao e possivel atribuir a constante"] else []
      let erros2 :=
        if tipos_compativeis s.tipo tipo_valor then []
        else ["Tipo incompativel na atribuicao"]
      (erros1 ++ erros2, some { s with inicializado := true }, s.tipo)

-- ═══════════════════════════════════════════════════════════════════════
-- semantico.py : the tem_retorno flag of visitar_se
-- ═══════════════════════════════════════════════════════════════════════

/-- Statement skeleton retaining exactly the constructs that touch the
analyzer flag `tem_retorno`: `retorna` (semantico.py line 568) sets it,
`se` (lines 478-504) combines its branches, sequencing inside a block
threads it, and every other statement leaves it unchanged. -/
inductive Stmt where
  | retorna
  | se (bloco_verdadeiro : Stmt) (bloco_falso : Option Stmt)
  | seq (primeiro segundo : Stmt)
  | vazio
deriving Repr

/-- Value of `self.tem_retorno` after `stmt.aceitar(self)` when it was
`antes` before, transliterating semantico.py lines 490-502 for `se` (save
`tem_retorno_antes`, visit the then branch, reset and visit the else
branch when present with `tem_retorno_falso = False` otherwise, then set
the flag to the conjunction) and line 568 for `retorna`. -/
def temRetornoApos (antes : Bool) : Stmt → Bool
  | .retorna => true
  | .se bloco_verdadeiro bloco_falso =>
      let tem_retorno_verdadeiro := temRetornoApos antes bloco_verdadeiro
      let tem_retorno_falso :=
        match bloco_falso with
        | some bf => temRetornoApos antes bf
        | none => false
      tem_retorno_verdadeiro && tem_retorno_falso
  | .seq primeiro segundo => temRetornoApos (temRetornoApos antes primeiro) segundo
  | .vazio => antes

-- ═══════════════════════════════════════════════════════════════════════
-- lexer.py : token kinds, tokens, and Scanner.analisar_numero
-- ═══════════════════════════════════════════════════════════════════════

/-- The `TipoToken` enum from lexer.py (lines 23-125). -/
inductive TipoToken where
  | NUMERO_INTEIRO | NUMERO_REAL | TEXTO | VERDADEIRO | FALSO
  | IDENTIFICADOR
  | TIPO_INTEIRO | TIPO_REAL | TIPO_TEXTO | TIPO_LOGICO | TIPO_VAZIO
  | SE | SENAO | SENAOSE | ENQUANTO | PARA | DE | ATE | PASSO | FACA | REPITA
  | FUNCAO | RETORNA | ESCREVA | LEIA
  | E | OU | NAO
  | VAR | CONST
  | MAIS | MENOS | MULTIPLICA | DIVIDE | MODULO | POTENCIA
  | IGUAL | DIFERENTE | MENOR | MENOR_IGUAL | MAIOR | MAIOR_IGUAL
  | ATRIBUICAO | MAIS_IGUAL | MENOS_IGUAL | MULT_IGUAL | DIV_IGUAL
  | ABRE_PAREN | FECHA_PAREN | ABRE_CHAVE | FECHA_CHAVE
  | ABRE_COLCHETE | FECHA_COLCHETE
  | VIRGULA | PONTO_VIRGULA | DOIS_PONTOS | PONTO | SETA
  | FIM_ARQUIVO | NOVA_LINHA | COMENTARIO
deriving DecidableEq, Repr

/-- Processed token value (`Token.valor` in lexer.py has type `Any`):
`nulo` for Python `None`, integers for `int(lexema)`, the lexeme itself
for `float(lexema)` (floating point is kept symbolic), strings, and
booleans. -/
inductive Valor where
  | nulo
  | inteiro (n : Int)
  | realLex (lexema : String)
  | texto (s : String)
  | logico (b : Bool)
deriving DecidableEq, Repr

/-- The `Token` dataclass from lexer.py (lines 179-195). -/
structure Token where
  tipo : TipoToken
  lexema : String
  valor : Valor
  linha : Nat
  coluna : Nat
deriving DecidableEq, Repr

/-- Model of `Scanner.espiar` (lexer.py lines 285-289) viewed on the remaining
input: the next character, or the null character at end of input. -/
def espiar (s : List Char) : Char := s.headD (Char.ofNat 0)

/-- The fractional-part step of `Scanner.analisar_numero` (lexer.py
lines 379-386): the dot is consumed, together with the following digits,
only when `espiar() == '.'` and `espiar_proximo().isdigit()`; it returns
the `is_real` flag and the remaining input. -/
def parte_decimal (r : List Char) : Bool × List Char :=
  match r with
  | '.' :: t =>
      if (espiar t).isDigit then (true, t.dropWhile Char.isDigit)
      else (false, '.' :: t)
  | _ => (false, r)

/-- Sign handling inside the exponent step (lexer.py lines 393-394):
consume one leading `+` or `-` if present. -/
def apos_sinal (r : List Char) : List Char :=
  if espiar r = '+' ∨ espiar r = '-' then r.tail else r

/-- The scientific-notation step of `Scanner.analisar_numero` (lexer.py
lines 388-404): on `e`/`E` the marker and an optional sign are consumed,
then at least one digit is required (`ErroLexico` otherwise, modelled as
`Except.error ()`), and the number becomes real. -/
def parte_expoente (is_real : Bool) (r : List Char) :
    Except Unit (Bool × List Char) :=
  if (espiar r).toLower = 'e' then
    if (espiar (apos_sinal r.tail)).isDigit then
      Except.ok (true, (apos_sinal r.tail).dropWhile Char.isDigit)
    else Except.error ()
  else Except.ok (is_real, r)

/-- Model of `Scanner.analisar_numero` (lexer.py lines 373-410) on the remaining
input `s` positioned at the start of the number (the scanner enters it
while the first character is a digit): integer digits, the optional
fractional part, the optional exponent, and the final token kind
(`NUMERO_REAL` iff `is_real`).  Returns the token kind and the input
left unconsumed, or a lexical error.  Python `str.isdigit`/`str.lower`
are modelled by `Char.isDigit`/`Char.toLower` (they agree on ASCII). -/
def analisar_numero (s : List Char) : Except Unit (TipoToken × List Char) :=
  let pd := parte_decimal (s.dropWhile Char.isDigit)
  match parte_expoente pd.1 pd.2 with
  | .ok p =>
      .ok ((if p.1 then TipoToken.NUMERO_REAL else TipoToken.NUMERO_INTEIRO), p.2)
  | .error e => .error e

-- ═══════════════════════════════════════════════════════════════════════
-- parser.py : expression AST and compound-assignment lowering
-- ═══════════════════════════════════════════════════════════════════════

/-- Expression AST nodes from parser.py (lines 43-152), restricted to the
list-free constructors the claims need.  Field order follows the Python
dataclasses. -/
inductive Expressao where
  | literal (valor : Valor) (tipo : String) (token : Token)
  | variavel (nome : String) (token : Token)
  | binaria (esquerda : Expressao) (operador : Token) (direita : Expressao)
  | unaria (operador : Token) (operando : Expressao)
  | agrupamento (expressao : Expressao)
  | atribuicao (nome : String) (token_nome : Token) (valor : Expressao)
  | logica (esquerda : Expressao) (operador : Token) (direita : Expressao)
deriving DecidableEq, Repr

/-- The `op_map` dict of `Parser.atribuicao` (parser.py lines 821-826). -/
def op_map (t : TipoToken) : Option TipoToken :=
  match t with
  | .MAIS_IGUAL => some .MAIS
  | .MENOS_IGUAL => some .MENOS
  | .MULT_IGUAL => some .MULTIPLICA
  | .DIV_IGUAL => some .DIVIDE
  | _ => none

/-- The assignment-building tail of `Parser.atribuicao` (parser.py lines
810-833), after `combinar` matched one of `=`, `+=`, `-=`, `*=`, `/=`:
given the already-parsed left expression, the matched operator token and
the already-parsed right-hand value, build the AST.  For a compound
operator the synthesized token takes `op_map[operador.tipo]`, the first
character of the operator lexeme (`operador.lexema[0]`), value `None`,
and the operator's line and column; `x += e` becomes `x = x + e`.
A non-variable target raises `ErroSintatico`; a compound token type
outside `op_map` would raise `KeyError` (unreachable: `combinar` only
matches the five listed types). -/
def atribuicao_montar (expr : Expressao) (operador : Token) (valor : Expressao) :
    Except String Expressao :=
  match expr with
  | .variavel nome token =>
      if operador.tipo = TipoToken.ATRIBUICAO then
        .ok (.atribuicao nome token valor)
      else
        match op_map operador.tipo with
        | some t =>
            let op_token : Token :=
              { tipo := t, lexema := operador.lexema.take 1, valor := Valor.nulo,
                linha := operador.linha, coluna := operador.coluna }
            .ok (.atribuicao nome token (.binaria (.variavel nome token) op_token valor))
        | none => .error "KeyError"
  | _ => .error "Alvo de atribuicao invalido"

-- ═══════════════════════════════════════════════════════════════════════
-- lusitano.py : Python code generator (GeradorPython)
-- ═══════════════════════════════════════════════════════════════════════

/-- A single apostrophe, as a string. -/
def aspas : String := String.singleton (Char.ofNat 39)

/-- Model of `GeradorPython.visitar_literal` (lusitano.py lines 129-134).  Python
`repr` of a string is modelled for quote- and escape-free text as the
text wrapped in single quotes. -/
def gerar_literal (valor : Valor) (tipo : String) : String :=
  if tipo = "texto" then
    match valor with
    | .texto s => aspas ++ s ++ aspas
    | v => aspas ++ reprStr v ++ aspas
  else if tipo = "logico" then
    match valor with
    | .logico b => if b then "True" else "False"
    | _ => "False"
  else
    match valor with
    | .inteiro n => toString n
    | .realLex lexema => lexema
    | .texto s => s
    | .logico b => if b then "True" else "False"
    | .nulo => "None"

/-- The `mapa_ops` dict of `GeradorPython.visitar_binaria` (lusitano.py
lines 145-158): every listed operator maps to itself. -/
def mapa_ops : List (String × String) :=
  [("==", "=="), ("!=", "!="), ("<", "<"), ("<=", "<="), (">", ">"),
   (">=", ">="), ("+", "+"), ("-", "-"), ("*", "*"), ("/", "/"),
   ("%", "%"), ("**", "**")]

/-- Model of `mapa_ops.get(op, op)` (lusitano.py line 160). -/
def op_python (op : String) : String := ((mapa_ops.lookup op).getD op)

/-- The expression visitors of `GeradorPython` (lusitano.py lines
129-193): each node is rendered to a Python source fragment.  The
`em_expressao` flag selects the walrus form of assignments (lines
174-178); the generator threads it unchanged through sub-expressions. -/
def gerar_expressao (em_expressao : Bool) : Expressao → String
  | .literal valor tipo _ => gerar_literal valor tipo
  | .variavel nome _ => nome
  | .binaria esquerda operador direita =>
      "(" ++ gerar_expressao em_expressao esquerda ++ " " ++
        op_python operador.lexema ++ " " ++
        gerar_expressao em_expressao direita ++ ")"
  | .unaria operador operando =>
      let o := gerar_expressao em_expressao operando
      if operador.lexema = "nao" then "(not " ++ o ++ ")"
      else "(" ++ operador.lexema ++ o ++ ")"
  | .agrupamento expressao => "(" ++ gerar_expressao em_expressao expressao ++ ")"
  | .atribuicao nome _ valor =>
      let v := gerar_expressao em_expressao valor
      if em_expressao then "(" ++ nome ++ " := " ++ v ++ ")"
      else nome ++ " = " ++ v
  | .logica esquerda operador direita =>
      let o := if operador.lexema = "e" then "and" else "or"
      "(" ++ gerar_expressao em_expressao esquerda ++ " " ++ o ++ " " ++
        gerar_expressao em_expressao direita ++ ")"

/-- The line emitted by `GeradorPython.visitar_para` (lusitano.py lines
263-277), with the loop variable and the already-generated fragments for
the start, end and optional step expressions: `+ 1` is always appended to
the end expression. -/
def visitar_para_linha (variavel inicio fim : String) (passo : Option String) :
    String :=
  match passo with
  | some p =>
      "for " ++ variavel ++ " in range(" ++ inicio ++ ", " ++ fim ++ " + 1, " ++
        p ++ "):"
  | none =>
      "for " ++ variavel ++ " in range(" ++ inicio ++ ", " ++ fim ++ " + 1):"

/-- The line emitted by `GeradorPython.visitar_escreva` (lusitano.py
lines 303-306): the generated argument fragments joined by `", "`,
wrapped in a single print call whose sep option is the empty string. -/
def visitar_escreva_linha (argumentos : List String) : String :=
  "print(" ++ String.intercalate ", " argumentos ++ ", sep=" ++ aspas ++ aspas ++ ")"

/-- The semantics of the host builtin `range(a, b)` with step 1 that the
generated `for` line runs under Python: the integers from `a` up to but
excluding `b`. -/
def pyRange (a b : Int) : List Int :=
  (List.range (b - a).toNat).map (fun (i : Nat) => a + (i : Int))

-- ═══════════════════════════════════════════════════════════════════════
-- semantico.py : symbol table and the declaration visitors
-- ═══════════════════════════════════════════════════════════════════════

/-- The `TabelaSimbolos` class (semantico.py lines 87-135).  Python keeps a list of
dicts with the global scope first and `escopo_atual` always the last
index; here scopes are association lists stored innermost first, with
the current scope `atual` held separately (the Python list is never
empty).  `todos` mirrors `todos_simbolos`. -/
structure TabelaSimbolos where
  atual : List (String × Simbolo)
  externos : List (List (String × Simbolo))
  todos : List Simbolo
deriving Repr

/-- Index of the current scope (`escopo_atual`): the number of enclosing
scopes. -/
def escopoAtual (t : TabelaSimbolos) : Nat := t.externos.length

/-- Model of `TabelaSimbolos.entrar_escopo` (semantico.py lines 100-103). -/
def entrar_escopo (t : TabelaSimbolos) : TabelaSimbolos :=
  { atual := [], externos := t.atual :: t.externos, todos := t.todos }

/-- Model of `TabelaSimbolos.sair_escopo` (semantico.py lines 105-109): pops the
current scope unless already at the global one. -/
def sair_escopo (t : TabelaSimbolos) : TabelaSimbolos :=
  match t.externos with
  | [] => t
  | e :: r => { atual := e, externos := r, todos := t.todos }

/-- Model of `TabelaSimbolos.buscar_local` (semantico.py lines 133-135). -/
def buscar_local (t : TabelaSimbolos) (nome : String) : Option Simbolo :=
  t.atual.lookup nome

/-- Model of `TabelaSimbolos.declarar` (semantico.py lines 111-122): fails when
the name already exists in the current scope; otherwise stores the
symbol (with its `escopo` field set to the current scope) and appends it
to `todos_simbolos`. -/
def declarar (t : TabelaSimbolos) (s : Simbolo) : TabelaSimbolos × Bool :=
  if (t.atual.lookup s.nome).isSome then (t, false)
  else
    let s1 := { s with escopo := escopoAtual t }
    ({ atual := t.atual ++ [(s1.nome, s1)], externos := t.externos,
       todos := t.todos ++ [s1] }, true)

/-- The analyzer state threaded through the visitors: the symbol table,
the error and warning lists (`self.erros`, `self.avisos`), the enclosing
function (`self.funcao_atual`) and the return flag (`self.tem_retorno`). -/
structure Estado where
  tabela : TabelaSimbolos
  erros : List String
  avisos : List String
  funcao_atual : Option Simbolo
  tem_retorno : Bool

/-- Model of `MAPA_TIPOS.get(nome, padrao)`. -/
def mapaTiposGet (nome : String) (padrao : Tipo) : Tipo :=
  (MAPA_TIPOS.lookup nome).getD padrao

/-- Model of `AnalisadorSemantico.visitar_declaracao_variavel` (semantico.py lines
418-466).  The visit of the initializer expression is abstracted as the
function `inicializador` on states (absent when the declaration has no
initializer).  On a duplicate name in the current scope the method
records one error and returns `None` immediately, touching nothing else;
otherwise it resolves the declared type, analyzes the initializer,
checks compatibility, rejects uninitialized constants, and declares the
symbol. -/
def visitar_declaracao_variavel (st : Estado) (nome : String)
    (tipo_dado : Option String) (inicializador : Option (Estado → Estado × Tipo))
    (constante : Bool) (linha coluna : Nat) : Estado × Option Tipo :=
  match buscar_local st.tabela nome with
  | some _ =>
      ({ st with erros := st.erros ++
          ["Variavel " ++ nome ++ " ja foi declarada neste escopo"] }, none)
  | none =>
      let tipo0 := match tipo_dado with
        | some td => mapaTiposGet td Tipo.DESCONHECIDO
        | none => Tipo.DESCONHECIDO
      let (st1, tipo1) := match inicializador with
        | some visita =>
            let (stA, tipo_inicializador) := visita st
            if tipo0 = Tipo.DESCONHECIDO then (stA, tipo_inicializador)
            else if tipos_compativeis tipo0 tipo_inicializador then (stA, tipo0)
            else ({ stA with erros := stA.erros ++
                ["Tipo incompativel na declaracao de " ++ nome] }, tipo0)
        | none => (st, tipo0)
      let st2 :=
        if constante ∧ inicializador.isNone then
          { st1 with erros := st1.erros ++
              ["Constante " ++ nome ++ " deve ser inicializada na declaracao"] }
        else st1
      let simbolo : Simbolo :=
        { nome := nome, tipo := tipo1,
          categoria := if constante then "constante" else "variavel",
          escopo := escopoAtual st2.tabela, linha := linha, coluna := coluna,
          constante := constante, inicializado := inicializador.isSome }
      let (tab2, _) := declarar st2.tabela simbolo
      ({ st2 with tabela := tab2 }, some tipo1)

/-- Model of `AnalisadorSemantico.visitar_funcao` (semantico.py lines 355-416).
The visit of the function body is abstracted as `corpo` on states.  On a
duplicate name in the current scope the method records one error and
returns immediately; otherwise it declares the function symbol, enters a
scope, declares the parameters as initialized, analyzes the body, warns
when a non-`vazio` function may not return, leaves the scope and
restores `funcao_atual`. -/
def visitar_funcao (st : Estado) (nome : String)
    (parametros : List (String × String)) (tipo_retorno : Option String)
    (corpo : Estado → Estado) (linha coluna : Nat) : Estado :=
  match buscar_local st.tabela nome with
  | some _ =>
      { st with erros := st.erros ++ ["Funcao " ++ nome ++ " ja foi declarada"] }
  | none =>
      let tipo_ret := match tipo_retorno with
        | some tr => mapaTiposGet tr Tipo.VAZIO
        | none => Tipo.VAZIO
      let params := parametros.map (fun p => (p.1, mapaTiposGet p.2 Tipo.DESCONHECIDO))
      let simbolo : Simbolo :=
        { nome := nome, tipo := Tipo.FUNCAO, categoria := "funcao",
          escopo := escopoAtual st.tabela, linha := linha, coluna := coluna,
          parametros := params, tipo_retorno := some tipo_ret }
      let (tab1, _) := declarar st.tabela simbolo
      let tab2 := entrar_escopo tab1
      let tab3 := params.foldl (fun t p =>
        (declarar t { nome := p.1, tipo := p.2, categoria := "parametro",
                      escopo := escopoAtual t, linha := linha, coluna := coluna,
                      inicializado := true }).1) tab2
      let st1 : Estado :=
        { st with
          tabela := tab3
          funcao_atual := some simbolo
          tem_retorno := false }
      let st2 := corpo st1
      let st3 :=
        if tipo_ret ≠ Tipo.VAZIO ∧ st2.tem_retorno = false then
          { st2 with avisos := st2.avisos ++
              ["Funcao " ++ nome ++ " deveria retornar em todos os caminhos"] }
        else st2
      { st3 with tabela := sair_escopo st3.tabela, funcao_atual := st.funcao_atual }

end Lusitano

namespace Lusitano

-- ═══════════════════════════════════════════════════════════════════════
-- Theorems for claims C4, C5, C1 (type compatibility and result types)
-- ═══════════════════════════════════════════════════════════════════════

/-- C4: `tipos_compativeis a b` holds iff `a = b`, or `{a,b}` is exactly
`{INTEIRO, REAL}`, or at least one of `a`, `b` is `DESCONHECIDO`, or at
least one is `ERRO`; for every other pair it is false. -/
theorem tipos_compativeis_caracterizacao :
    ∀ a b : Tipo,
      tipos_compativeis a b = true ↔
        (a = b ∨ (a = Tipo.INTEIRO ∧ b = Tipo.REAL) ∨
         (a = Tipo.REAL ∧ b = Tipo.INTEIRO) ∨
         a = Tipo.DESCONHECIDO ∨ b = Tipo.DESCONHECIDO ∨
         a = Tipo.ERRO ∨ b = Tipo.ERRO) := by
  decide

/-- C4 witness: a compatible pair and an incompatible pair, evaluated
concretely through the characterization. -/
theorem tipos_compativeis_caracterizacao_witness :
    tipos_compativeis Tipo.INTEIRO Tipo.REAL = true ∧
      ¬ tipos_compativeis Tipo.INTEIRO Tipo.TEXTO = true :=
  ⟨(tipos_compativeis_caracterizacao Tipo.INTEIRO Tipo.REAL).mpr
      (Or.inr (Or.inl ⟨rfl, rfl⟩)),
   fun h => by
    have := (tipos_compativeis_caracterizacao Tipo.INTEIRO Tipo.TEXTO).mp h
    simp at this⟩

/-- C5: for every binary arithmetic operator in `{+, -, *, /, %, **}`,
if both operand types are numeric the result type is `REAL` when either
operand is `REAL` or the operator is `/`, and `INTEIRO` otherwise; and
`TEXTO + TEXTO` yields `TEXTO`. -/
theorem tipo_resultante_aritmetica (t1 t2 : Tipo) (op : String)
    (hop : op ∈ operadoresAritmeticos)
    (h1 : t1 = Tipo.INTEIRO ∨ t1 = Tipo.REAL)
    (h2 : t2 = Tipo.INTEIRO ∨ t2 = Tipo.REAL) :
    tipo_resultante t1 t2 op =
      (if t1 = Tipo.REAL ∨ t2 = Tipo.REAL ∨ op = "/" then Tipo.REAL
       else Tipo.INTEIRO) ∧
    tipo_resultante Tipo.TEXTO Tipo.TEXTO "+" = Tipo.TEXTO := by
  constructor
  · fin_cases hop <;> rcases h1 with rfl | rfl <;> rcases h2 with rfl | rfl <;>
      simp [tipo_resultante, operadoresAritmeticos]
  · rfl

/-- C5 witness: `INTEIRO / INTEIRO = REAL` (division always promotes),
obtained by applying the theorem at a concrete input. -/
theorem tipo_resultante_aritmetica_witness :
    tipo_resultante Tipo.INTEIRO Tipo.INTEIRO "/" = Tipo.REAL ∧
      tipo_resultante Tipo.TEXTO Tipo.TEXTO "+" = Tipo.TEXTO := by
  have h := tipo_resultante_aritmetica Tipo.INTEIRO Tipo.INTEIRO "/"
    (by decide) (Or.inl rfl) (Or.inl rfl)
  refine ⟨?_, h.2⟩
  rw [h.1]
  simp

/-- C1 counterexample: a binary `+` whose left operand already has type
`ERRO` makes `visitar_binaria` emit one additional diagnostic (because
`tipo_resultante ERRO INTEIRO "+"` is `ERRO`), refuting the claim that no
additional diagnostic is emitted for an expression with an `ERRO`
operand. -/
theorem visitar_binaria_erro_cascata :
    visitar_binaria_novos_erros Tipo.ERRO Tipo.INTEIRO "+" = 1 ∧
      tipo_resultante Tipo.ERRO Tipo.INTEIRO "+" = Tipo.ERRO := by
  decide

/-- C1 amended: with an `ERRO` operand, comparison and logical operators
produce `LOGICO` and no new diagnostic, but arithmetic operators produce
`ERRO` and exactly one new diagnostic (the cascade is suppressed only for
comparison and logical operators). -/
theorem visitar_binaria_operando_erro (t1 t2 : Tipo) (op : String)
    (herr : t1 = Tipo.ERRO ∨ t2 = Tipo.ERRO) :
    (op ∈ operadoresComparacao ∨ op ∈ operadoresLogicos →
      tipo_resultante t1 t2 op = Tipo.LOGICO ∧
      visitar_binaria_novos_erros t1 t2 op = 0) ∧
    (op ∈ operadoresAritmeticos →
      tipo_resultante t1 t2 op = Tipo.ERRO ∧
      visitar_binaria_novos_erros t1 t2 op = 1) := by
  constructor
  · rintro (hop | hop) <;> rcases herr with rfl | rfl <;>
      first
        | (cases t2 <;> fin_cases hop <;> decide)
        | (cases t1 <;> fin_cases hop <;> decide)
  · intro hop
    rcases herr with rfl | rfl <;>
      first
        | (cases t2 <;> fin_cases hop <;> decide)
        | (cases t1 <;> fin_cases hop <;> decide)

/-- C1 witness for the amended claim: concrete evaluations through the
theorem, with an `ERRO` left operand. -/
theorem visitar_binaria_operando_erro_witness :
    (tipo_resultante Tipo.ERRO Tipo.TEXTO "==" = Tipo.LOGICO ∧
      visitar_binaria_novos_erros Tipo.ERRO Tipo.TEXTO "==" = 0) ∧
    (tipo_resultante Tipo.ERRO Tipo.TEXTO "*" = Tipo.ERRO ∧
      visitar_binaria_novos_erros Tipo.ERRO Tipo.TEXTO "*" = 1) :=
  ⟨(visitar_binaria_operando_erro Tipo.ERRO Tipo.TEXTO "==" (Or.inl rfl)).1
      (Or.inl (by decide)),
   (visitar_binaria_operando_erro Tipo.ERRO Tipo.TEXTO "*" (Or.inl rfl)).2
      (by decide)⟩

-- ═══════════════════════════════════════════════════════════════════════
-- Theorems for claims C2 (tem_retorno after se) and C3 (assignment)
-- ═══════════════════════════════════════════════════════════════════════

/-- C2: with both branches present, the flag after a `se` is the
conjunction of the flags produced by the two branch visits (each started
from the pre-statement value) — this part of the claim holds.  With only
the then branch, however, the code computes
`tem_retorno_verdadeiro && false`, i.e. always `false`; in particular a
`retorna` followed by a branchless `se` whose body has no return leaves
the flag `false`, although the claim says it must keep its pre-statement
value `true`. -/
theorem temRetornoApos_se (antes : Bool) (v f : Stmt) :
    temRetornoApos antes (.se v (some f)) =
      (temRetornoApos antes v && temRetornoApos antes f) ∧
    temRetornoApos antes (.se v none) = (temRetornoApos antes v && false) ∧
    temRetornoApos true (.se .vazio none) = false ∧
    temRetornoApos false (.seq .retorna (.se .vazio none)) = false := by
  refine ⟨rfl, rfl, rfl, rfl⟩

/-- C3 counterexample: assigning an `INTEIRO` value to an existing
non-constant `TEXTO` variable emits one incompatibility error, yet the
symbol is still marked `inicializado = true` — refuting the claim that
the mark happens exactly when no assignment error was emitted. -/
theorem visitar_atribuicao_marca_apesar_de_erro :
    (visitar_atribuicao
        (some { nome := "x", tipo := Tipo.TEXTO, categoria := "variavel",
                escopo := 0, linha := 1, coluna := 1 })
        Tipo.INTEIRO).1.length = 1 ∧
    (visitar_atribuicao
        (some { nome := "x", tipo := Tipo.TEXTO, categoria := "variavel",
                escopo := 0, linha := 1, coluna := 1 })
        Tipo.INTEIRO).2.1 =
      some { nome := "x", tipo := Tipo.TEXTO, categoria := "variavel",
             escopo := 0, linha := 1, coluna := 1, inicializado := true } := by
  constructor <;> rfl

/-- C3 amended: the analyzer errors when the target does not exist (and
returns `ERRO` without visiting the value), errors when the target is a
constant, errors when the value type is incompatible with the type of the
symbol — but it marks the target `inicializado = true` whenever the symbol
exists, even when the constant or incompatibility errors were emitted,
and returns the type of the symbol. -/
theorem visitar_atribuicao_comportamento (s : Simbolo) (tv : Tipo) :
    visitar_atribuicao none tv = (["Variavel nao foi declarada"], none, Tipo.ERRO) ∧
    (visitar_atribuicao (some s) tv).2.1 = some { s with inicializado := true } ∧
    ((visitar_atribuicao (some s) tv).1 = [] ↔
      s.constante = false ∧ tipos_compativeis s.tipo tv = true) ∧
    (visitar_atribuicao (some s) tv).2.2 = s.tipo := by
  refine ⟨rfl, rfl, ?_, rfl⟩
  cases hc : s.constante <;> cases hcomp : tipos_compativeis s.tipo tv <;>
    simp [visitar_atribuicao, hc, hcomp]

/-- C3 witness for the amended claim: a successful assignment to an
`INTEIRO` variable emits no errors and marks it initialized, evaluated
through the theorem at a concrete symbol. -/
theorem visitar_atribuicao_comportamento_witness :
    (visitar_atribuicao
        (some { nome := "n", tipo := Tipo.INTEIRO, categoria := "variavel",
                escopo := 0, linha := 2, coluna := 3 })
        Tipo.INTEIRO).1 = [] ∧
    (visitar_atribuicao
        (some { nome := "n", tipo := Tipo.INTEIRO, categoria := "variavel",
                escopo := 0, linha := 2, coluna := 3 })
        Tipo.INTEIRO).2.1 =
      some { nome := "n", tipo := Tipo.INTEIRO, categoria := "variavel",
             escopo := 0, linha := 2, coluna := 3, inicializado := true } :=
  ⟨((visitar_atribuicao_comportamento
      { nome := "n", tipo := Tipo.INTEIRO, categoria := "variavel",
        escopo := 0, linha := 2, coluna := 3 } Tipo.INTEIRO).2.2.1).mpr
      ⟨rfl, by decide⟩,
   (visitar_atribuicao_comportamento
      { nome := "n", tipo := Tipo.INTEIRO, categoria := "variavel",
        escopo := 0, linha := 2, coluna := 3 } Tipo.INTEIRO).2.1⟩

-- ═══════════════════════════════════════════════════════════════════════
-- Theorems for claim C6 (Scanner.analisar_numero)
-- ═══════════════════════════════════════════════════════════════════════

/-- Reduction of `parte_decimal` on input starting with a dot. -/
theorem parte_decimal_ponto (t : List Char) :
    parte_decimal ('.' :: t) =
      if (espiar t).isDigit then (true, t.dropWhile Char.isDigit)
      else (false, '.' :: t) := rfl

/-- Reduction of `parte_expoente` when the next character lowers to `e`. -/
theorem parte_expoente_marcador (b : Bool) (c : Char) (t : List Char)
    (hc : c.toLower = 'e') :
    parte_expoente b (c :: t) =
      (if (espiar (apos_sinal t)).isDigit then
        Except.ok (true, (apos_sinal t).dropWhile Char.isDigit)
      else Except.error ()) := by
  unfold parte_expoente
  simp [espiar, hc]

/-- The function `parte_expoente` never demotes an already-real number: a successful
result starting from `is_real = true` still carries `true`. -/
theorem parte_expoente_preserva_real (r : List Char) (p : Bool × List Char)
    (h : parte_expoente true r = Except.ok p) : p.1 = true := by
  unfold parte_expoente at h
  split at h
  · split at h
    · cases h
      rfl
    · exact Except.noConfusion h
  · cases h
    rfl

/-- C6: in `analisar_numero`, (1) a dot not followed by a digit is left
unconsumed and the token stays `NUMERO_INTEIRO`; (2) a consumed
fractional part forces `NUMERO_REAL` on any successful scan; (3) an
`e`/`E` exponent marker forces `NUMERO_REAL` on any successful scan;
(4) an exponent marker whose following character (after an optional
sign) is not a digit is a lexical error. -/
theorem analisar_numero_comportamento (s t : List Char) (c : Char) :
    (s.dropWhile Char.isDigit = '.' :: t → (espiar t).isDigit = false →
      analisar_numero s = Except.ok (TipoToken.NUMERO_INTEIRO, '.' :: t)) ∧
    (s.dropWhile Char.isDigit = '.' :: c :: t → c.isDigit = true →
      ∀ res, analisar_numero s = Except.ok res → res.1 = TipoToken.NUMERO_REAL) ∧
    ((parte_decimal (s.dropWhile Char.isDigit)).2 = c :: t → c.toLower = 'e' →
      ∀ res, analisar_numero s = Except.ok res → res.1 = TipoToken.NUMERO_REAL) ∧
    ((parte_decimal (s.dropWhile Char.isDigit)).2 = c :: t → c.toLower = 'e' →
      (espiar (apos_sinal t)).isDigit = false →
      analisar_numero s = Except.error ()) := by
  refine ⟨?_, ?_, ?_, ?_⟩
  · intro h1 h2
    simp only [analisar_numero, h1, parte_decimal_ponto, h2]
    simp [parte_expoente, espiar]
  · intro h1 h2 res hres
    simp only [analisar_numero, h1, parte_decimal_ponto, espiar,
      List.headD_cons, h2] at hres
    simp only [if_true] at hres
    rcases hpe : parte_expoente true ((c :: t).dropWhile Char.isDigit) with e | p
    · rw [hpe] at hres
      exact Except.noConfusion hres
    · rw [hpe] at hres
      have hp := parte_expoente_preserva_real _ _ hpe
      cases hres
      simp [hp]
  · intro h1 h2 res hres
    simp only [analisar_numero, h1] at hres
    rw [parte_expoente_marcador _ c t h2] at hres
    by_cases hd : (espiar (apos_sinal t)).isDigit
    · simp only [hd, if_true] at hres
      cases hres
      rfl
    · simp only [hd] at hres
      simp at hres
  · intro h1 h2 h3
    simp only [analisar_numero, h1]
    rw [parte_expoente_marcador _ c t h2]
    simp [h3]

/-- C6 witness: concrete scans obtained through the theorem — `3.x`
yields an integer token leaving `.x` unconsumed, and `1e+` is a lexical
error. -/
theorem analisar_numero_comportamento_witness :
    analisar_numero ['3', '.', 'x'] =
      Except.ok (TipoToken.NUMERO_INTEIRO, ['.', 'x']) ∧
    analisar_numero ['1', 'e', '+'] = Except.error () :=
  ⟨(analisar_numero_comportamento ['3', '.', 'x'] ['x'] 'e').1
      (by decide) (by decide),
   (analisar_numero_comportamento ['1', 'e', '+'] ['+'] 'e').2.2.2
      (by decide) (by decide) (by decide)⟩

-- ═══════════════════════════════════════════════════════════════════════
-- Theorems for claim C7 (compound-assignment lowering)
-- ═══════════════════════════════════════════════════════════════════════

/-- C7: for each compound operator `+=`, `-=`, `*=`, `/=` on a variable
target, `Parser.atribuicao` produces exactly the assignment AST of
`x = x op e`: an `atribuicao` node whose value is a single `binaria`
node whose synthesized operator token has the mapped single operator,
the first character of the compound lexeme, and the line and column of
the original compound token.  Moreover the generated Python code ignores
everything of the operator token but its lexeme, so the lowered tree and
a directly parsed `x = x op e` (whose operator token has the same
lexeme) generate identical code for every value expression. -/
theorem atribuicao_composta (nome : String) (tokVar : Token) (valor : Expressao)
    (v : Valor) (lin col : Nat) :
    (atribuicao_montar (.variavel nome tokVar)
        { tipo := .MAIS_IGUAL, lexema := "+=", valor := v, linha := lin, coluna := col }
        valor =
      Except.ok (.atribuicao nome tokVar (.binaria (.variavel nome tokVar)
        { tipo := .MAIS, lexema := "+", valor := .nulo, linha := lin, coluna := col }
        valor))) ∧
    (atribuicao_montar (.variavel nome tokVar)
        { tipo := .MENOS_IGUAL, lexema := "-=", valor := v, linha := lin, coluna := col }
        valor =
      Except.ok (.atribuicao nome tokVar (.binaria (.variavel nome tokVar)
        { tipo := .MENOS, lexema := "-", valor := .nulo, linha := lin, coluna := col }
        valor))) ∧
    (atribuicao_montar (.variavel nome tokVar)
        { tipo := .MULT_IGUAL, lexema := "*=", valor := v, linha := lin, coluna := col }
        valor =
      Except.ok (.atribuicao nome tokVar (.binaria (.variavel nome tokVar)
        { tipo := .MULTIPLICA, lexema := "*", valor := .nulo, linha := lin, coluna := col }
        valor))) ∧
    (atribuicao_montar (.variavel nome tokVar)
        { tipo := .DIV_IGUAL, lexema := "/=", valor := v, linha := lin, coluna := col }
        valor =
      Except.ok (.atribuicao nome tokVar (.binaria (.variavel nome tokVar)
        { tipo := .DIVIDE, lexema := "/", valor := .nulo, linha := lin, coluna := col }
        valor))) ∧
    (∀ (em : Bool) (t1 t2 : Token), t1.lexema = t2.lexema →
      gerar_expressao em
          (.atribuicao nome tokVar (.binaria (.variavel nome tokVar) t1 valor)) =
        gerar_expressao em
          (.atribuicao nome tokVar (.binaria (.variavel nome tokVar) t2 valor))) := by
  refine ⟨?_, ?_, ?_, ?_, ?_⟩
  · simp [atribuicao_montar, op_map]
    rfl
  · simp [atribuicao_montar, op_map]
    rfl
  · simp [atribuicao_montar, op_map]
    rfl
  · simp [atribuicao_montar, op_map]
    rfl
  · intro em t1 t2 h
    simp [gerar_expressao, h]

/-- C7 witness: `x += 5` lowered at a concrete token, and the identical
generated code for the lowered tree and a directly written `x = x + 5`
whose `+` token sits at a different source position. -/
theorem atribuicao_composta_witness :
    atribuicao_montar
        (.variavel "x"
          { tipo := .IDENTIFICADOR, lexema := "x", valor := .nulo, linha := 3, coluna := 1 })
        { tipo := .MAIS_IGUAL, lexema := "+=", valor := .nulo, linha := 3, coluna := 3 }
        (.literal (.inteiro 5) "inteiro"
          { tipo := .NUMERO_INTEIRO, lexema := "5", valor := .inteiro 5, linha := 3, coluna := 6 }) =
      Except.ok (.atribuicao "x"
        { tipo := .IDENTIFICADOR, lexema := "x", valor := .nulo, linha := 3, coluna := 1 }
        (.binaria
          (.variavel "x"
            { tipo := .IDENTIFICADOR, lexema := "x", valor := .nulo, linha := 3, coluna := 1 })
          { tipo := .MAIS, lexema := "+", valor := .nulo, linha := 3, coluna := 3 }
          (.literal (.inteiro 5) "inteiro"
            { tipo := .NUMERO_INTEIRO, lexema := "5", valor := .inteiro 5, linha := 3, coluna := 6 }))) ∧
    gerar_expressao false
        (.atribuicao "x"
          { tipo := .IDENTIFICADOR, lexema := "x", valor := .nulo, linha := 3, coluna := 1 }
          (.binaria
            (.variavel "x"
              { tipo := .IDENTIFICADOR, lexema := "x", valor := .nulo, linha := 3, coluna := 1 })
            { tipo := .MAIS, lexema := "+", valor := .nulo, linha := 3, coluna := 3 }
            (.literal (.inteiro 5) "inteiro"
              { tipo := .NUMERO_INTEIRO, lexema := "5", valor := .inteiro 5, linha := 3, coluna := 6 }))) =
      gerar_expressao false
        (.atribuicao "x"
          { tipo := .IDENTIFICADOR, lexema := "x", valor := .nulo, linha := 3, coluna := 1 }
          (.binaria
            (.variavel "x"
              { tipo := .IDENTIFICADOR, lexema := "x", valor := .nulo, linha := 3, coluna := 1 })
            { tipo := .MAIS, lexema := "+", valor := .realLex "+", linha := 9, coluna := 5 }
            (.literal (.inteiro 5) "inteiro"
              { tipo := .NUMERO_INTEIRO, lexema := "5", valor := .inteiro 5, linha := 3, coluna := 6 }))) :=
  ⟨(atribuicao_composta "x"
      { tipo := .IDENTIFICADOR, lexema := "x", valor := .nulo, linha := 3, coluna := 1 }
      (.literal (.inteiro 5) "inteiro"
        { tipo := .NUMERO_INTEIRO, lexema := "5", valor := .inteiro 5, linha := 3, coluna := 6 })
      Valor.nulo 3 3).1,
   (atribuicao_composta "x"
      { tipo := .IDENTIFICADOR, lexema := "x", valor := .nulo, linha := 3, coluna := 1 }
      (.literal (.inteiro 5) "inteiro"
        { tipo := .NUMERO_INTEIRO, lexema := "5", valor := .inteiro 5, linha := 3, coluna := 6 })
      Valor.nulo 3 3).2.2.2.2 false
      { tipo := .MAIS, lexema := "+", valor := .nulo, linha := 3, coluna := 3 }
      { tipo := .MAIS, lexema := "+", valor := .realLex "+", linha := 9, coluna := 5 }
      rfl⟩

-- ═══════════════════════════════════════════════════════════════════════
-- Theorems for claims C8 (para loop) and C9 (escreva)
-- ═══════════════════════════════════════════════════════════════════════

/-- C8: `visitar_para` always adds `+ 1` to the generated end expression
(with and without a step), and the resulting host loop
`range(A, B + 1)` iterates exactly `max 0 (B - A + 1)` times — inclusive
on both ends. -/
theorem visitar_para_inclusivo (v i f p : String) (A B : Int) :
    visitar_para_linha v i f none =
      "for " ++ v ++ " in range(" ++ i ++ ", " ++ f ++ " + 1):" ∧
    visitar_para_linha v i f (some p) =
      "for " ++ v ++ " in range(" ++ i ++ ", " ++ f ++ " + 1, " ++ p ++ "):" ∧
    ((pyRange A (B + 1)).length : Int) = max 0 (B - A + 1) := by
  refine ⟨rfl, rfl, ?_⟩
  simp only [pyRange, List.length_map, List.length_range]
  omega

/-- C9: `visitar_escreva` emits one `print` line with the generated
argument fragments joined by commas followed by a sep option equal to
the empty string — but for the zero-expression form the emitted text has
a leading comma before the sep option, so it differs from the
well-formed zero-argument print call: the generated line is a Python
syntax error. -/
theorem visitar_escreva_sep (argumentos : List String) :
    visitar_escreva_linha argumentos =
      "print(" ++ String.intercalate ", " argumentos ++ ", sep=" ++
        aspas ++ aspas ++ ")" ∧
    visitar_escreva_linha [] = "print(, sep=" ++ aspas ++ aspas ++ ")" ∧
    visitar_escreva_linha [] ≠ "print(sep=" ++ aspas ++ aspas ++ ")" := by
  refine ⟨rfl, rfl, ?_⟩
  decide

-- ═══════════════════════════════════════════════════════════════════════
-- Theorems for claim C10 (duplicate declarations)
-- ═══════════════════════════════════════════════════════════════════════

/-- C10: when the declared name already exists in the current scope
frame, both `visitar_declaracao_variavel` and `visitar_funcao` append
exactly one error and return with the symbol table (and the rest of the
state) untouched; the result does not depend on the initializer or the
function body, which are therefore never analyzed. -/
theorem declaracao_duplicada (st : Estado) (nome : String)
    (tipo_dado : Option String) (inicializador : Option (Estado → Estado × Tipo))
    (constante : Bool) (linha coluna : Nat)
    (parametros : List (String × String)) (tipo_retorno : Option String)
    (corpo : Estado → Estado) (s : Simbolo)
    (h : buscar_local st.tabela nome = some s) :
    visitar_declaracao_variavel st nome tipo_dado inicializador constante
        linha coluna =
      ({ st with erros := st.erros ++
          ["Variavel " ++ nome ++ " ja foi declarada neste escopo"] }, none) ∧
    (∀ inicializador2,
      visitar_declaracao_variavel st nome tipo_dado inicializador2 constante
          linha coluna =
        visitar_declaracao_variavel st nome tipo_dado inicializador constante
          linha coluna) ∧
    visitar_funcao st nome parametros tipo_retorno corpo linha coluna =
      { st with erros := st.erros ++
          ["Funcao " ++ nome ++ " ja foi declarada"] } ∧
    (∀ corpo2,
      visitar_funcao st nome parametros tipo_retorno corpo2 linha coluna =
        visitar_funcao st nome parametros tipo_retorno corpo linha coluna) := by
  refine ⟨?_, ?_, ?_, ?_⟩ <;>
    simp [visitar_declaracao_variavel, visitar_funcao, h]

/-- C10 witness: a concrete duplicate variable declaration through the
theorem: the table keeps its single symbol and one error is recorded. -/
theorem declaracao_duplicada_witness :
    visitar_declaracao_variavel
      { tabela :=
          { atual := [("x",
              { nome := "x", tipo := Tipo.INTEIRO, categoria := "variavel",
                escopo := 0, linha := 1, coluna := 5 })],
            externos := [], todos := [] },
        erros := [], avisos := [], funcao_atual := none, tem_retorno := false }
      "x" (some "real") none false 2 5 =
      ({ tabela :=
          { atual := [("x",
              { nome := "x", tipo := Tipo.INTEIRO, categoria := "variavel",
                escopo := 0, linha := 1, coluna := 5 })],
            externos := [], todos := [] },
         erros := ["Variavel x ja foi declarada neste escopo"],
         avisos := [], funcao_atual := none, tem_retorno := false }, none) := by
  have h := (declaracao_duplicada
    { tabela :=
        { atual := [("x",
            { nome := "x", tipo := Tipo.INTEIRO, categoria := "variavel",
              escopo := 0, linha := 1, coluna := 5 })],
          externos := [], todos := [] },
      erros := [], avisos := [], funcao_atual := none, tem_retorno := false }
    "x" (some "real") none false 2 5 [] none id
    { nome := "x", tipo := Tipo.INTEIRO, categoria := "variavel",
      escopo := 0, linha := 1, coluna := 5 } rfl).1
  simpa using h

end Lusitano
